import Mathlib

/-!
Verification development for the `library_catalog` service.

Shallow embedding of the caching layer (`core/cache.py`), the external
request executor (`external/base/base_client.py`), the Open Library
clients (`external/openlibrary/client.py`, `cached_client.py`), the
repository / unit-of-work layer (`data/repositories/*.py`, `data/uow.py`)
and the book domain service (`domain/services/book_service.py`).

Python values stored in the cache are modelled by `PyObj`; `Option PyObj`
models `Any | None`.  Machine time is a `Nat` tick count; the in-process
backend (a `cachetools.TTLCache`) is modelled as an association list of
entries carrying an absolute expiry instant.
-/

namespace LibraryCatalog

/-- A non-`None` Python value as stored in the cache: a string, an
integer, or a (flat) dictionary.  `Option PyObj` stands for `Any | None`. -/
inductive PyObj where
  | pstr (s : String)
  | pint (n : Int)
  | pdict (entries : List (String × String))
deriving DecidableEq, Repr

/-- Python truthiness of a `PyObj` (`if value:`): empty strings and empty
dicts are falsy, zero is falsy. -/
def PyObj.truthy : PyObj → Bool
  | .pstr s => !s.isEmpty
  | .pint n => n ≠ 0
  | .pdict es => !es.isEmpty

/-- One stored cache entry of the in-process backend: key, value and the
absolute instant at which the entry expires (entries are live strictly
before `expiry`, matching `cachetools.TTLCache`). -/
structure CacheEntry where
  key : String
  value : PyObj
  expiry : Nat
deriving DecidableEq, Repr

/-- `InMemoryCache.__init__` (`core/cache.py`, lines 50-60): a
`TTLCache(maxsize, ttl)` plus the remembered default TTL.  Eviction by
`maxsize` is not modelled (the claims about liveness condition on the
entry not being evicted). -/
structure InMemoryCache where
  entries : List CacheEntry
  defaultTtl : Nat
deriving DecidableEq, Repr

/-- `InMemoryCache.get` (`core/cache.py`, lines 62-69): return the live
entry for `key`, or `None`.  An expired entry is never returned. -/
def imcGet (c : InMemoryCache) (now : Nat) (key : String) : Option PyObj :=
  match c.entries.find? (fun e => e.key = key) with
  | some e => if now < e.expiry then some e.value else none
  | none => none

/-- `InMemoryCache.set` (`core/cache.py`, lines 71-74):
`self._cache[key] = value`.  The `ttl` argument is only used in the debug
log line; the stored entry always expires at `now + defaultTtl`
(the `TTLCache` construction-time TTL). -/
def imcSet (c : InMemoryCache) (now : Nat) (key : String) (value : PyObj)
    (ttl : Option Nat) : InMemoryCache :=
  let _ := ttl
  { c with entries :=
      ⟨key, value, now + c.defaultTtl⟩ :: c.entries.filter (fun e => e.key ≠ key) }

/-- `InMemoryCache.delete` (`core/cache.py`, lines 76-79):
`self._cache.pop(key, None)`. -/
def imcDelete (c : InMemoryCache) (key : String) : InMemoryCache :=
  { c with entries := c.entries.filter (fun e => e.key ≠ key) }

/-- `InMemoryCache.clear` (`core/cache.py`, lines 81-84). -/
def imcClear (c : InMemoryCache) : InMemoryCache :=
  { c with entries := [] }

/-- `CacheService.get_or_set` (`core/cache.py`, lines 185-214) over the
in-process backend.  The deferred computation is modelled by the value
`factoryVal : Option PyObj` it would produce.  Returns the produced
value, the new cache state, and whether the factory was invoked. -/
def getOrSet (c : InMemoryCache) (now : Nat) (key : String)
    (factoryVal : Option PyObj) (ttl : Nat) :
    Option PyObj × InMemoryCache × Bool :=
  match imcGet c now key with
  | some cached => (some cached, c, false)
  | none =>
    match factoryVal with
    | some value => (some value, imcSet c now key value (some ttl), true)
    | none => (none, c, true)

/-- `CacheService.invalidate` (`core/cache.py`, lines 216-218):
`await self.backend.delete(key)`. -/
def cacheInvalidate (c : InMemoryCache) (key : String) : InMemoryCache :=
  imcDelete c key

/-- `CacheService.invalidate_pattern` (`core/cache.py`, lines 220-238),
non-Redis branch: the `else` arm only writes a debug log line
(`"Pattern invalidation not supported for InMemoryCache"`) and leaves
the backend state untouched. -/
def invalidatePatternInMemory (c : InMemoryCache) (pattern : String) :
    InMemoryCache :=
  let _ := pattern
  c

/-! ### Cache-key derivation (`core/cache.py` `make_key`, `cached_client.py`) -/

/-- A positional argument passed to `CacheService.make_key`: a string or
Python `None` (`isbn: str | None`). -/
inductive PyArg where
  | s (v : String)
  | noneArg
deriving DecidableEq, Repr

/-- JSON string escaping as performed by `json.dumps` on the characters
relevant here: backslash and double quote. -/
def jsonEscapeChar (ch : Char) : String :=
  if ch = '\\' then "\\\\"
  else if ch = '\"' then "\\\""
  else String.singleton ch

/-- A JSON string literal for `s`. -/
def jsonStr (s : String) : String :=
  "\"" ++ String.join (s.data.map jsonEscapeChar) ++ "\""

/-- JSON serialization of one positional argument. -/
def jsonOfArg : PyArg → String
  | .s v => jsonStr v
  | .noneArg => "null"

/-- Interleave `sep` between the serialized arguments, as `json.dumps`
renders a list with its default `", "` separator. -/
def joinSep (sep : String) : List String → String
  | [] => ""
  | [x] => x
  | x :: y :: rest => x ++ sep ++ joinSep sep (y :: rest)

/-- `key_data = json.dumps({"args": args, "kwargs": kwargs}, sort_keys=True)`
(`core/cache.py`, line 182) for a purely positional call:
`kwargs` is empty and `"args"` sorts before `"kwargs"`. -/
def makeKeyData (args : List PyArg) : String :=
  "\x7b\"args\": [" ++ joinSep ", " (args.map jsonOfArg) ++ "], \"kwargs\": \x7b\x7d\x7d"

/-- The MD5 hex digest applied to the key data (`core/cache.py`,
line 183).  The digest is modelled as the identity injection on the
serialized key data: MD5 is deterministic, so equal inputs give equal
digests, and distinct inputs are treated as collision-free (the digest's
design goal; the claims only compare keys of short concrete inputs). -/
def md5HexModel (s : String) : String :=
  s

/-- `CacheService.make_key(*args)` (`core/cache.py`, lines 175-183) for a
positional call. -/
def makeKey (args : List PyArg) : String :=
  md5HexModel (makeKeyData args)

/-- ISBN normalization `isbn.replace("-", "").replace(" ", "")`
(`cached_client.py` line 50, `client.py` line 59, `schemas/book.py`
line 90). -/
def cleanIsbn (isbn : String) : String :=
  String.mk (isbn.data.filter (fun ch => ch ≠ '-' ∧ ch ≠ ' '))

/-- `CachedOpenLibraryClient.search_by_isbn` cache key
(`cached_client.py`, lines 49-51): `f"ol:isbn:{clean_isbn}"`. -/
def isbnCacheKey (isbn : String) : String :=
  "ol:isbn:" ++ cleanIsbn isbn

/-- `CachedOpenLibraryClient.search_by_title_author` cache key
(`cached_client.py`, line 75):
`f"ol:title_author:{CacheService.make_key(title, author)}"`. -/
def titleAuthorCacheKey (title author : String) : String :=
  "ol:title_author:" ++ makeKey [.s title, .s author]

/-- `CachedOpenLibraryClient.enrich` cache key (`cached_client.py`,
line 101): `f"ol:enrich:{CacheService.make_key(title, author, isbn)}"` —
note the raw, un-normalized `isbn` is passed. -/
def enrichCacheKey (title author : String) (isbn : Option String) : String :=
  "ol:enrich:" ++
    makeKey [.s title, .s author,
      match isbn with | some i => .s i | none => .noneArg]

/-! ### Shared request executor with retry
(`external/base/base_client.py`, `BaseApiClient._request`, lines 94-175) -/

/-- What one network attempt does: succeed with a decoded body, time out
(`httpx.TimeoutException`), finish with an HTTP error status
(`response.raise_for_status()` raising `httpx.HTTPStatusError`), or
return a body that fails JSON decoding (`response.json()` raising, not
caught by either `except` arm). -/
inductive Outcome where
  | success (body : List (String × String))
  | timeout
  | httpStatus (code : Nat)
  | malformed
deriving DecidableEq, Repr

/-- The failure `_request` raises to its caller. -/
inductive ReqError where
  | timeoutErr
  | statusErr (code : Nat)
  | malformedErr
  | allFailed
deriving DecidableEq, Repr

deriving instance DecidableEq for Except

/-- Observable result of running `_request`: the returned body or raised
failure, the backoff sleeps performed (in order), and how many attempts
were started. -/
structure RunResult where
  result : Except ReqError (List (String × String))
  delays : List ℚ
  attemptsMade : Nat
deriving DecidableEq, Repr

/-- The `for attempt in range(self.retries)` loop of `_request`
(lines 121-175).  `remaining` counts loop iterations still available
including the current one, so the current attempt index is `idx` and
`attempt == self.retries - 1` exactly when `remaining = 1`.
`outcomes idx` is what the network does on attempt `idx`.
- timeout: re-raised on the last attempt, otherwise sleep
  `backoff * 2 ^ attempt` and retry (lines 142-158);
- HTTP status error: retried with the same backoff only when the code is
  `>= 500` and this is not the last attempt, otherwise re-raised at once
  (lines 160-172);
- malformed body: not caught, propagates at once;
- loop exhausted without entering: `httpx.HTTPError` (line 175). -/
def requestGo (backoff : ℚ) (outcomes : Nat → Outcome) :
    Nat → Nat → List ℚ → RunResult
  | 0, idx, delays => ⟨.error .allFailed, delays.reverse, idx⟩
  | remaining + 1, idx, delays =>
    match outcomes idx with
    | .success body => ⟨.ok body, delays.reverse, idx + 1⟩
    | .timeout =>
      if remaining = 0 then
        ⟨.error .timeoutErr, delays.reverse, idx + 1⟩
      else
        requestGo backoff outcomes remaining (idx + 1)
          (backoff * 2 ^ idx :: delays)
    | .httpStatus code =>
      if 500 ≤ code ∧ remaining ≠ 0 then
        requestGo backoff outcomes remaining (idx + 1)
          (backoff * 2 ^ idx :: delays)
      else
        ⟨.error (.statusErr code), delays.reverse, idx + 1⟩
    | .malformed => ⟨.error .malformedErr, delays.reverse, idx + 1⟩

/-- `BaseApiClient._request` with `retries` configured attempts and
backoff base `backoff` (constructor defaults `retries=3`,
`backoff=0.5`). -/
def requestRun (retries : Nat) (backoff : ℚ) (outcomes : Nat → Outcome) :
    RunResult :=
  requestGo backoff outcomes retries 0 []

/-! ### Data model and transactional session
(`data/models/book.py`, `data/uow.py`, `data/repositories/*.py`) -/

/-- The `books` table row (`data/models/book.py`).  `bookId` stands for
the UUID primary key; `createdAt`/`updatedAt` are tick counts. -/
structure Book where
  bookId : Nat
  title : String
  author : String
  year : Int
  genre : String
  pages : Int
  available : Bool
  isbn : Option String
  description : Option String
  extra : Option (List (String × String))
  createdAt : Nat
  updatedAt : Nat
deriving DecidableEq, Repr

/-- The SQLAlchemy `AsyncSession` shared by all repositories of one
`UnitOfWork` scope (`data/uow.py`): `rows` is the current in-transaction
view of the table, `durable` the last committed state, and `commits`
counts how many times `session.commit()` has run in the scope. -/
structure Session where
  rows : List Book
  durable : List Book
  commits : Nat
deriving DecidableEq, Repr

/-- `session.add(instance)`: stage a new row in the transaction. -/
def sessionAdd (s : Session) (b : Book) : Session :=
  { s with rows := s.rows ++ [b] }

/-- `session.commit()` — performed by `UnitOfWork.commit`
(`data/uow.py`, lines 101-108) and, directly, by the repository methods
below: the in-transaction view becomes durable. -/
def sessionCommit (s : Session) : Session :=
  { s with durable := s.rows, commits := s.commits + 1 }

/-- `session.rollback()` (`data/uow.py`, lines 110-117): discard
uncommitted changes. -/
def sessionRollback (s : Session) : Session :=
  { s with rows := s.durable }

/-- `BaseRepository.get_by_id` (`base_repository.py`, lines 56-69). -/
def repoGetById (s : Session) (id : Nat) : Option Book :=
  s.rows.find? (fun b => b.bookId = id)

/-- `BaseRepository.create` (`base_repository.py`, lines 40-54):
`session.add(instance)` followed by `await self.session.commit()`
(line 52) — the repository itself commits the shared session. -/
def repoCreate (s : Session) (b : Book) : Session × Book :=
  let s1 := sessionAdd s b
  let s2 := sessionCommit s1
  (s2, b)

/-- The keyword arguments of `BaseRepository.update`: each field is
either absent or carries a new value. -/
structure BookPatch where
  title : Option String := none
  author : Option String := none
  year : Option Int := none
  genre : Option String := none
  pages : Option Int := none
  available : Option Bool := none
  isbn : Option (Option String) := none
  description : Option (Option String) := none
  extra : Option (Option (List (String × String))) := none
deriving DecidableEq, Repr

/-- The `setattr` loop of `BaseRepository.update` applied to one row. -/
def applyPatch (p : BookPatch) (b : Book) : Book :=
  { b with
    title := p.title.getD b.title
    author := p.author.getD b.author
    year := p.year.getD b.year
    genre := p.genre.getD b.genre
    pages := p.pages.getD b.pages
    available := p.available.getD b.available
    isbn := p.isbn.getD b.isbn
    description := p.description.getD b.description
    extra := p.extra.getD b.extra }

/-- `BaseRepository.update` (`base_repository.py`, lines 71-92): fetch by
id; if absent return `None`; otherwise apply the given fields and
`await self.session.commit()` (line 90). -/
def repoUpdate (s : Session) (id : Nat) (p : BookPatch) :
    Session × Option Book :=
  match repoGetById s id with
  | none => (s, none)
  | some _ =>
    let newRows := s.rows.map (fun b => if b.bookId = id then applyPatch p b else b)
    let s2 := sessionCommit { s with rows := newRows }
    (s2, repoGetById s2 id)

/-- `BaseRepository.delete` (`base_repository.py`, lines 94-110): fetch
by id; if absent return `False`; otherwise `session.delete` the row and
`await self.session.commit()` (line 109). -/
def repoDelete (s : Session) (id : Nat) : Session × Bool :=
  match repoGetById s id with
  | none => (s, false)
  | some _ =>
    let s1 := { s with rows := s.rows.filter (fun b => b.bookId ≠ id) }
    let s2 := sessionCommit s1
    (s2, true)

/-- `BaseRepository.count` (`base_repository.py`, lines 131-140):
`SELECT count(*)` over the session's view of the table. -/
def repoCount (s : Session) : Nat :=
  s.rows.length

/-- `BookRepository.find_by_isbn` (`book_repository.py`, lines 79-91):
`WHERE Book.isbn == isbn` on the raw, un-normalized string. -/
def find_by_isbn (s : Session) (isbn : String) : Option Book :=
  s.rows.find? (fun b => b.isbn = some isbn)

/-! ### Filtered search (`book_repository.py`, lines 33-77 and 93-129) -/

/-- The optional filter predicates of `find_by_filters` /
`count_by_filters`. -/
structure BookFilters where
  title : Option String := none
  author : Option String := none
  genre : Option String := none
  year : Option Int := none
  available : Option Bool := none
deriving DecidableEq, Repr

/-- `ilike(f"%{pat}%")`: case-insensitive substring match. -/
def ilikeContains (field pat : String) : Bool :=
  decide (List.IsInfix pat.toLower.data field.toLower.data)

/-- Python truthiness of an optional string (`if title:`): both `None`
and the empty string skip the filter. -/
def optStrTruthy : Option String → Bool
  | some s => !s.isEmpty
  | none => false

/-- Python truthiness of an optional integer (`if year:`): both `None`
and `0` skip the filter. -/
def optIntTruthy : Option Int → Bool
  | some n => n ≠ 0
  | none => false

/-- The conjunction of `WHERE` clauses built by `find_by_filters`
(`book_repository.py`, lines 60-70): substring `ilike` for title and
author, exact match for genre and year (each added only when truthy),
and equality for `available` when it `is not None`. -/
def findFiltersMatch (f : BookFilters) (b : Book) : Bool :=
  (if optStrTruthy f.title then ilikeContains b.title (f.title.getD "") else true) &&
  (if optStrTruthy f.author then ilikeContains b.author (f.author.getD "") else true) &&
  (if optStrTruthy f.genre then b.genre = f.genre.getD "" else true) &&
  (if optIntTruthy f.year then b.year = f.year.getD 0 else true) &&
  (match f.available with
   | some av => b.available = av
   | none => true)

/-- The conjunction of `WHERE` clauses built by `count_by_filters`
(`book_repository.py`, lines 116-126) — textually the same clauses as in
`find_by_filters`. -/
def countFiltersMatch (f : BookFilters) (b : Book) : Bool :=
  (if optStrTruthy f.title then ilikeContains b.title (f.title.getD "") else true) &&
  (if optStrTruthy f.author then ilikeContains b.author (f.author.getD "") else true) &&
  (if optStrTruthy f.genre then b.genre = f.genre.getD "" else true) &&
  (if optIntTruthy f.year then b.year = f.year.getD 0 else true) &&
  (match f.available with
   | some av => b.available = av
   | none => true)

/-- Insert a row into a list kept sorted by `created_at` descending. -/
def insertByCreatedDesc (b : Book) : List Book → List Book
  | [] => [b]
  | x :: xs =>
    if x.createdAt ≤ b.createdAt then b :: x :: xs
    else x :: insertByCreatedDesc b xs

/-- `ORDER BY Book.created_at DESC` (`book_repository.py`, line 73). -/
def orderByCreatedDesc : List Book → List Book
  | [] => []
  | b :: bs => insertByCreatedDesc b (orderByCreatedDesc bs)

/-- `BookRepository.find_by_filters` (`book_repository.py`,
lines 33-77): filter, order by creation time descending, then apply
`OFFSET offset` and `LIMIT limit`. -/
def find_by_filters (s : Session) (f : BookFilters) (limit offset : Nat) :
    List Book :=
  (((orderByCreatedDesc (s.rows.filter (findFiltersMatch f))).drop offset).take limit)

/-- `BookRepository.count_by_filters` (`book_repository.py`,
lines 93-129): `SELECT count(*)` under the same predicates. -/
def count_by_filters (s : Session) (f : BookFilters) : Nat :=
  (s.rows.filter (countFiltersMatch f)).length

/-! ### Domain service (`domain/services/book_service.py`) -/

/-- The request payload `BookCreate` (`api/v1/schemas/book.py`). -/
structure BookCreateData where
  title : String
  author : String
  year : Int
  genre : String
  pages : Int
  isbn : Option String
  description : Option String
deriving DecidableEq, Repr

/-- The typed enrichment failures of `domain/exceptions.py`:
`OpenLibraryTimeoutException` and `OpenLibraryException`. -/
inductive EnrichError where
  | timeoutErr (timeout : ℚ)
  | serviceErr (message : String)
deriving DecidableEq, Repr

/-- The fatal errors `create_book` can raise
(`domain/exceptions.py`): `InvalidYearException`,
`InvalidPagesException`, and the Conflict-kind
`BookAlreadyExistsException`.  Typed enrichment failures are
deliberately not present: `create_book` never raises them. -/
inductive CreateError where
  | invalidYear (year : Int)
  | invalidPages (pages : Int)
  | alreadyExists (isbn : String)
deriving DecidableEq, Repr

/-- `BookService._validate_year` (`book_service.py`, lines 273-285):
reject years outside `[1000, current_year]`. -/
def validateYear (currentYear year : Int) : Except CreateError Unit :=
  if year < 1000 ∨ year > currentYear then .error (.invalidYear year)
  else .ok ()

/-- `BookService._validate_pages` (`book_service.py`, lines 287-298):
reject `pages <= 0`. -/
def validatePages (pages : Int) : Except CreateError Unit :=
  if pages ≤ 0 then .error (.invalidPages pages)
  else .ok ()

/-- `BookService._validate_book_data` (`book_service.py`,
lines 259-271). -/
def validateBookData (currentYear : Int) (d : BookCreateData) :
    Except CreateError Unit := do
  _ ← validateYear currentYear d.year
  validatePages d.pages

/-- `BookService._enrich_book_data` (`book_service.py`, lines 300-332):
invoke the client's `enrich`; a typed enrichment exception is caught and
becomes `None`; an empty dict is also turned into `None`
(`return extra if extra else None`). -/
def enrichBookData (res : Except EnrichError (List (String × String))) :
    Option (List (String × String)) :=
  match res with
  | .ok extra => if extra.isEmpty then none else some extra
  | .error _ => none

/-- Steps 3-5 of `create_book`: enrichment, persistence and the final
service-level commit. -/
def createBookPersist (newId now : Nat) (d : BookCreateData)
    (enrichRes : Except EnrichError (List (String × String)))
    (s : Session) : Except CreateError Book × Session :=
  let extra := enrichBookData enrichRes
  let book : Book :=
    { bookId := newId, title := d.title, author := d.author,
      year := d.year, genre := d.genre, pages := d.pages,
      available := true, isbn := d.isbn, description := d.description,
      extra := extra, createdAt := now, updatedAt := now }
  let (s1, created) := repoCreate s book
  let s2 := sessionCommit s1
  (.ok created, s2)

/-- `BookService.create_book` (`book_service.py`, lines 70-120):
validate, check ISBN uniqueness with the raw string via `find_by_isbn`,
enrich best-effort, `repo.create` (which itself commits), and the
service-level `await self.book_repo.session.commit()` (line 115).
The external enrichment call's outcome is the parameter `enrichRes`;
`newId`/`now` stand for the generated primary key and timestamps.
Returns the raised error or the created row, together with the session
as the operation left it. -/
def create_book (currentYear : Int) (newId now : Nat) (d : BookCreateData)
    (enrichRes : Except EnrichError (List (String × String)))
    (s : Session) : Except CreateError Book × Session :=
  match validateBookData currentYear d with
  | .error e => (.error e, s)
  | .ok () =>
    match d.isbn with
    | some isbn =>
      match find_by_isbn s isbn with
      | some _ => (.error (.alreadyExists isbn), s)
      | none => createBookPersist newId now d enrichRes s
    | none => createBookPersist newId now d enrichRes s

/-! ### Helper lemmas -/

theorem find?_filter_key_ne (l : List CacheEntry) (k : String) :
    (l.filter (fun e => e.key ≠ k)).find? (fun e => e.key = k) = none := by
  rw [List.find?_eq_none]
  intro e he
  have hmem := List.mem_filter.mp he
  simpa using hmem.2

theorem imcGet_set_same (c : InMemoryCache) (now t : Nat) (k : String)
    (v : PyObj) (ttl : Option Nat) :
    imcGet (imcSet c now k v ttl) t k =
      if t < now + c.defaultTtl then some v else none := by
  simp [imcGet, imcSet, List.find?_cons]

theorem imcGet_delete_same (c : InMemoryCache) (now : Nat) (k : String) :
    imcGet (imcDelete c k) now k = none := by
  show (match (c.entries.filter (fun e => e.key ≠ k)).find? (fun e => e.key = k) with
        | some e => if now < e.expiry then some e.value else none
        | none => none) = none
  rw [find?_filter_key_ne]

/-! ### Claim theorems -/

/-- C10: the in-process backend's `set` ignores its per-call `ttl`
argument entirely: the state after `set` does not depend on the `ttl`
argument, every stored entry expires exactly at `now + defaultTtl`, and
in particular a value stored with the cached enrichment wrapper's
`ttl=3600` into a backend constructed with the default `ttl=300` is
already gone 300 ticks later, although 300 < 3600. -/
theorem C10_inmemory_set_ignores_ttl (c : InMemoryCache) (now t : Nat)
    (k : String) (v : PyObj) (ttl1 ttl2 : Option Nat) :
    imcSet c now k v ttl1 = imcSet c now k v ttl2 ∧
    imcGet (imcSet c now k v ttl1) t k =
      (if t < now + c.defaultTtl then some v else none) ∧
    imcGet (imcSet ⟨[], 300⟩ 0 "k" v (some 3600)) 300 "k" = none ∧
    (300 : Nat) < 3600 := by
  refine ⟨rfl, imcGet_set_same c now t k v ttl1, ?_, by norm_num⟩
  simp [imcGet_set_same]

/-- C3: `invalidate_pattern` on the in-process backend is a silent
no-op, not a degradation to clearing the whole cache: the state is
returned unchanged for every pattern, and a concrete matching entry is
still returned live afterwards (contradicting the claim and the
method's own docstring, which says the in-memory branch clears the
entire cache). -/
theorem C3_invalidate_pattern_inmemory_is_noop :
    (∀ (c : InMemoryCache) (pattern : String),
      invalidatePatternInMemory c pattern = c) ∧
    imcGet
      (invalidatePatternInMemory
        ⟨[⟨"ol:isbn:9780132350884", PyObj.pdict [("publisher", "PH")], 300⟩], 300⟩
        "ol:*")
      0 "ol:isbn:9780132350884" = some (PyObj.pdict [("publisher", "PH")]) := by
  constructor
  · intro c pattern
    rfl
  · rfl

/-- C2 counterexample: a compute function yielding an empty payload (an
empty dict, exactly what `OpenLibraryClient` returns on a negative
lookup) IS cached by `get_or_set` — the stored entry is live, and an
immediately following `get_or_set` with the same key does NOT invoke the
compute function again, contrary to the claim. -/
theorem C2_counterexample_empty_dict_cached :
    ((getOrSet ⟨[], 300⟩ 0 "k" (some (PyObj.pdict [])) 3600).2.2 = true) ∧
    (imcGet (getOrSet ⟨[], 300⟩ 0 "k" (some (PyObj.pdict [])) 3600).2.1 0 "k" =
      some (PyObj.pdict [])) ∧
    ((getOrSet (getOrSet ⟨[], 300⟩ 0 "k" (some (PyObj.pdict [])) 3600).2.1
        0 "k" (some (PyObj.pdict [])) 3600).2.2 = false) := by
  refine ⟨rfl, ?_, ?_⟩ <;> rfl

/-- C2 amended: only a `None`/absent compute result is left uncached —
then the cache is unchanged and a following `get_or_set` invokes the
compute function again; any non-`None` result, including an empty
payload, is stored, and a following `get_or_set` with the same key does
not invoke the compute function. -/
theorem C2_only_none_uncached (c : InMemoryCache) (now : Nat) (k : String)
    (ttl : Nat) (v : PyObj) (f2 : Option PyObj)
    (hmiss : imcGet c now k = none) (httl : 0 < c.defaultTtl) :
    getOrSet c now k none ttl = (none, c, true) ∧
    (getOrSet (getOrSet c now k none ttl).2.1 now k f2 ttl).2.2 = true ∧
    getOrSet c now k (some v) ttl = (some v, imcSet c now k v (some ttl), true) ∧
    (getOrSet (getOrSet c now k (some v) ttl).2.1 now k f2 ttl).2.2 = false := by
  have h1 : getOrSet c now k none ttl = (none, c, true) := by
    simp [getOrSet, hmiss]
  have h3 : getOrSet c now k (some v) ttl =
      (some v, imcSet c now k v (some ttl), true) := by
    simp [getOrSet, hmiss]
  refine ⟨h1, ?_, h3, ?_⟩
  · rw [h1]
    cases f2 <;> simp [getOrSet, hmiss]
  · rw [h3]
    simp [getOrSet, imcGet_set_same, httl]

/-- C2 amended, witness at a concrete input: empty cache with default
TTL 300, key `"k"`, payload an empty dict. -/
theorem C2_only_none_uncached_witness :
    imcGet (⟨[], 300⟩ : InMemoryCache) 0 "k" = none ∧ (0 : Nat) < 300 ∧
    (getOrSet ⟨[], 300⟩ 0 "k" none 3600 = (none, ⟨[], 300⟩, true) ∧
     (getOrSet (getOrSet ⟨[], 300⟩ 0 "k" none 3600).2.1 0 "k"
        (some (PyObj.pdict [])) 3600).2.2 = true ∧
     getOrSet ⟨[], 300⟩ 0 "k" (some (PyObj.pdict [])) 3600 =
       (some (PyObj.pdict []),
        imcSet ⟨[], 300⟩ 0 "k" (PyObj.pdict []) (some 3600), true) ∧
     (getOrSet (getOrSet ⟨[], 300⟩ 0 "k" (some (PyObj.pdict [])) 3600).2.1
        0 "k" (some (PyObj.pdict [])) 3600).2.2 = false) :=
  ⟨rfl, by norm_num,
    C2_only_none_uncached ⟨[], 300⟩ 0 "k" 3600 (PyObj.pdict [])
      (some (PyObj.pdict [])) rfl (by norm_num)⟩

/-- C7: while the value cached by a first `get_or_set` is still live, a
second `get_or_set` with the same key does not invoke its compute
function; and after an explicit `invalidate` of a key, the next
`get_or_set` with that key always invokes the compute function. -/
theorem C7_get_or_set_invokes_at_most_once (c : InMemoryCache)
    (now now2 : Nat) (k : String) (fv fv2 : Option PyObj) (ttl ttl2 : Nat)
    (hlive : imcGet (getOrSet c now k fv ttl).2.1 now2 k ≠ none) :
    (getOrSet (getOrSet c now k fv ttl).2.1 now2 k fv2 ttl2).2.2 = false ∧
    ∀ (c3 : InMemoryCache) (now3 ttl3 : Nat) (fv3 : Option PyObj),
      (getOrSet (cacheInvalidate c3 k) now3 k fv3 ttl3).2.2 = true := by
  constructor
  · generalize (getOrSet c now k fv ttl).2.1 = c1 at hlive ⊢
    rcases h : imcGet c1 now2 k with _ | w
    · exact absurd h hlive
    · simp [getOrSet, h]
  · intro c3 now3 ttl3 fv3
    have hdel : imcGet (cacheInvalidate c3 k) now3 k = none :=
      imcGet_delete_same c3 now3 k
    rcases fv3 with _ | w <;> simp [getOrSet, hdel]

/-- C7 witness at a concrete input: empty cache, key `"k"`, a compute
result of `1`; the second call at the same instant finds the entry live
and does not invoke; after `invalidate` it invokes again. -/
theorem C7_get_or_set_invokes_at_most_once_witness :
    imcGet (getOrSet ⟨[], 300⟩ 0 "k" (some (PyObj.pint 1)) 300).2.1 0 "k" ≠ none ∧
    ((getOrSet (getOrSet ⟨[], 300⟩ 0 "k" (some (PyObj.pint 1)) 300).2.1
        0 "k" (some (PyObj.pint 2)) 300).2.2 = false ∧
     ∀ (c3 : InMemoryCache) (now3 ttl3 : Nat) (fv3 : Option PyObj),
       (getOrSet (cacheInvalidate c3 "k") now3 "k" fv3 ttl3).2.2 = true) :=
  ⟨by decide,
    C7_get_or_set_invokes_at_most_once ⟨[], 300⟩ 0 0 "k"
      (some (PyObj.pint 1)) (some (PyObj.pint 2)) 300 300 (by decide)⟩

/-- C1: contrary to the single-commit-point discipline, the repository
operations commit the shared transactional session themselves:
`create` always commits (the new row is durable immediately, with no
`UnitOfWork.commit`), and `update`/`delete` commit whenever the target
row exists. -/
theorem C1_repository_operations_commit (s : Session) (b : Book)
    (id : Nat) (p : BookPatch) :
    ((repoCreate s b).1.commits = s.commits + 1 ∧
     (repoCreate s b).1.durable = s.rows ++ [b]) ∧
    (repoUpdate s id p).1.commits =
      (if (repoGetById s id).isSome then s.commits + 1 else s.commits) ∧
    (repoDelete s id).1.commits =
      (if (repoGetById s id).isSome then s.commits + 1 else s.commits) := by
  refine ⟨⟨rfl, rfl⟩, ?_, ?_⟩
  · rcases h : repoGetById s id with _ | bk <;>
      simp [repoUpdate, sessionCommit, h]
  · rcases h : repoGetById s id with _ | bk <;>
      simp [repoDelete, sessionCommit, h]

/-- The create-book request of the spec's worked scenario. -/
def cleanCodeData : BookCreateData :=
  { title := "Clean Code", author := "Robert Martin", year := 2008,
    genre := "Programming", pages := 464,
    isbn := some "978-0132350884", description := none }

/-- The same request with the separator characters stripped from the
external id. -/
def cleanCodeDataNoSep : BookCreateData :=
  { cleanCodeData with isbn := some "9780132350884" }

/-- A fresh Unit-of-Work session over an empty table. -/
def emptySession : Session := ⟨[], [], 0⟩

/-- The state after creating the first entry. -/
def c4FirstRun : Except CreateError Book × Session :=
  create_book 2024 1 0 cleanCodeData (Except.ok []) emptySession

/-- A second create whose external id is equal to the first only after
normalization. -/
def c4SecondRun : Except CreateError Book × Session :=
  create_book 2024 2 0 cleanCodeDataNoSep (Except.ok []) c4FirstRun.2

/-- C4 counterexample: the two external ids are equal after
normalization, yet the second create does not fail with a Conflict — it
succeeds, and the entry count grows from 1 to 2.  The uniqueness check
(`find_by_isbn`) compares raw ISBN strings. -/
theorem C4_counterexample_separator_variant_not_conflict :
    cleanIsbn "978-0132350884" = cleanIsbn "9780132350884" ∧
    repoCount c4FirstRun.2 = 1 ∧
    c4SecondRun.1 = Except.ok
      { bookId := 2, title := "Clean Code", author := "Robert Martin",
        year := 2008, genre := "Programming", pages := 464,
        available := true, isbn := some "9780132350884",
        description := none, extra := none, createdAt := 0,
        updatedAt := 0 } ∧
    repoCount c4SecondRun.2 = 2 := by
  exact ⟨by decide, by decide, by decide, by decide⟩

/-- C4 amended: a second create whose external id is byte-for-byte
equal to an existing entry's fails with the Conflict kind and leaves the
session — hence the entry count — unchanged; ids equal only after
normalization are treated as distinct and do not conflict. -/
theorem C4_exact_duplicate_isbn_conflict (currentYear : Int)
    (newId now : Nat) (d : BookCreateData)
    (enrichRes : Except EnrichError (List (String × String)))
    (s : Session) (i : String) (b : Book)
    (hvalid : validateBookData currentYear d = Except.ok ())
    (hisbn : d.isbn = some i)
    (hfound : find_by_isbn s i = some b) :
    (create_book currentYear newId now d enrichRes s).1 =
      Except.error (CreateError.alreadyExists i) ∧
    (create_book currentYear newId now d enrichRes s).2 = s ∧
    repoCount (create_book currentYear newId now d enrichRes s).2 =
      repoCount s := by
  have h : create_book currentYear newId now d enrichRes s =
      (Except.error (CreateError.alreadyExists i), s) := by
    simp [create_book, hvalid, hisbn, hfound]
  rw [h]
  exact ⟨rfl, rfl, rfl⟩

/-- The row persisted by the first create of the worked scenario. -/
def cleanCodeBook : Book :=
  { bookId := 1, title := "Clean Code", author := "Robert Martin",
    year := 2008, genre := "Programming", pages := 464, available := true,
    isbn := some "978-0132350884", description := none, extra := none,
    createdAt := 0, updatedAt := 0 }

/-- A session already holding the worked scenario's entry. -/
def c4DupSession : Session := ⟨[cleanCodeBook], [cleanCodeBook], 2⟩

/-- C4 amended, witness: re-creating with the identical ISBN string
raises the Conflict kind and the count stays at 1. -/
theorem C4_exact_duplicate_isbn_conflict_witness :
    validateBookData 2024 cleanCodeData = Except.ok () ∧
    cleanCodeData.isbn = some "978-0132350884" ∧
    find_by_isbn c4DupSession "978-0132350884" = some cleanCodeBook ∧
    ((create_book 2024 2 0 cleanCodeData (Except.ok []) c4DupSession).1 =
        Except.error (CreateError.alreadyExists "978-0132350884") ∧
     (create_book 2024 2 0 cleanCodeData (Except.ok []) c4DupSession).2 =
        c4DupSession ∧
     repoCount (create_book 2024 2 0 cleanCodeData (Except.ok [])
        c4DupSession).2 = repoCount c4DupSession) :=
  ⟨by decide, rfl, by decide,
    C4_exact_duplicate_isbn_conflict 2024 2 0 cleanCodeData (Except.ok [])
      c4DupSession "978-0132350884" cleanCodeBook (by decide) rfl (by decide)⟩

/-- C5: when the enrichment lookup fails with a typed enrichment
exception (timeout or general service failure), a valid create still
succeeds: the row is persisted with its extension payload `None`, and no
enrichment error reaches the caller (the error type of `create_book`
cannot even carry one). -/
theorem C5_enrich_failure_create_succeeds (currentYear : Int)
    (newId now : Nat) (d : BookCreateData) (err : EnrichError) (s : Session)
    (hvalid : validateBookData currentYear d = Except.ok ())
    (hunique : ∀ i, d.isbn = some i → find_by_isbn s i = none) :
    (create_book currentYear newId now d (Except.error err) s).1 =
      Except.ok
        { bookId := newId, title := d.title, author := d.author,
          year := d.year, genre := d.genre, pages := d.pages,
          available := true, isbn := d.isbn, description := d.description,
          extra := none, createdAt := now, updatedAt := now } ∧
    (create_book currentYear newId now d (Except.error err) s).2.rows =
      s.rows ++
        [{ bookId := newId, title := d.title, author := d.author,
           year := d.year, genre := d.genre, pages := d.pages,
           available := true, isbn := d.isbn, description := d.description,
           extra := none, createdAt := now, updatedAt := now }] := by
  rcases hi : d.isbn with _ | i
  · constructor <;>
      simp [create_book, hvalid, hi, createBookPersist, enrichBookData,
        repoCreate, sessionAdd, sessionCommit]
  · have hfi := hunique i hi
    constructor <;>
      simp [create_book, hvalid, hi, hfi, createBookPersist, enrichBookData,
        repoCreate, sessionAdd, sessionCommit]

/-- C5 witness: the worked scenario's create with an enrichment timeout
still persists the entry, with `extra = none`. -/
theorem C5_enrich_failure_create_succeeds_witness :
    validateBookData 2024 cleanCodeData = Except.ok () ∧
    (∀ i, cleanCodeData.isbn = some i → find_by_isbn emptySession i = none) ∧
    ((create_book 2024 1 0 cleanCodeData
        (Except.error (EnrichError.timeoutErr 10)) emptySession).1 =
      Except.ok
        { bookId := 1, title := cleanCodeData.title,
          author := cleanCodeData.author, year := cleanCodeData.year,
          genre := cleanCodeData.genre, pages := cleanCodeData.pages,
          available := true, isbn := cleanCodeData.isbn,
          description := cleanCodeData.description, extra := none,
          createdAt := 0, updatedAt := 0 } ∧
     (create_book 2024 1 0 cleanCodeData
        (Except.error (EnrichError.timeoutErr 10)) emptySession).2.rows =
      emptySession.rows ++
        [{ bookId := 1, title := cleanCodeData.title,
           author := cleanCodeData.author, year := cleanCodeData.year,
           genre := cleanCodeData.genre, pages := cleanCodeData.pages,
           available := true, isbn := cleanCodeData.isbn,
           description := cleanCodeData.description, extra := none,
           createdAt := 0, updatedAt := 0 }]) :=
  ⟨by decide, fun i _ => rfl,
    C5_enrich_failure_create_succeeds 2024 1 0 cleanCodeData
      (EnrichError.timeoutErr 10) emptySession (by decide) (fun i _ => rfl)⟩

theorem length_insertByCreatedDesc (b : Book) (l : List Book) :
    (insertByCreatedDesc b l).length = l.length + 1 := by
  induction l with
  | nil => rfl
  | cons x xs ih =>
    by_cases h : x.createdAt ≤ b.createdAt <;>
      simp [insertByCreatedDesc, h, ih]

theorem length_orderByCreatedDesc (l : List Book) :
    (orderByCreatedDesc l).length = l.length := by
  induction l with
  | nil => rfl
  | cons b bs ih =>
    simp [orderByCreatedDesc, length_insertByCreatedDesc, ih]

/-- C8: `count_by_filters` always equals the number of rows
`find_by_filters` returns under the same predicates with zero offset and
a limit at least the matching-row count (in particular the whole table
size) — the two code paths build the same conjunction of predicates, and
ordering preserves length. -/
theorem C8_count_by_filters_matches_find (s : Session) (f : BookFilters) :
    count_by_filters s f = (find_by_filters s f s.rows.length 0).length ∧
    ∀ L, count_by_filters s f ≤ L →
      count_by_filters s f = (find_by_filters s f L 0).length := by
  have hpred : countFiltersMatch = findFiltersMatch := rfl
  have hcount : count_by_filters s f =
      (s.rows.filter (findFiltersMatch f)).length := by
    rw [count_by_filters, hpred]
  have hlen : ∀ L, (find_by_filters s f L 0).length =
      min L (s.rows.filter (findFiltersMatch f)).length := by
    intro L
    simp [find_by_filters, List.length_take, length_orderByCreatedDesc]
  have hle : (s.rows.filter (findFiltersMatch f)).length ≤ s.rows.length :=
    List.length_filter_le _ _
  constructor
  · rw [hcount, hlen]
    omega
  · intro L hL
    rw [hcount] at hL ⊢
    rw [hlen]
    omega

/-- C8 witness: one matching row out of one, counted and enumerated
consistently with a limit of 5. -/
theorem C8_count_by_filters_matches_find_witness :
    count_by_filters c4DupSession ⟨none, none, some "Programming", none, none⟩ ≤ 5 ∧
    count_by_filters c4DupSession ⟨none, none, some "Programming", none, none⟩ =
      (find_by_filters c4DupSession ⟨none, none, some "Programming", none, none⟩
        5 0).length :=
  ⟨by decide,
    (C8_count_by_filters_matches_find c4DupSession
      ⟨none, none, some "Programming", none, none⟩).2 5 (by decide)⟩

/-- C9 counterexample: `"978-0132350884"` and `"9780132350884"` are
equal after normalization, yet the combined-enrich operation derives
different cache keys for them, because `enrich` passes the raw external
id to `make_key`. -/
theorem C9_counterexample_enrich_key_raw_isbn :
    cleanIsbn "978-0132350884" = cleanIsbn "9780132350884" ∧
    enrichCacheKey "Clean Code" "Robert Martin" (some "978-0132350884") ≠
      enrichCacheKey "Clean Code" "Robert Martin" (some "9780132350884") := by
  exact ⟨by decide, by decide⟩

/-- C9 amended: only the lookup-by-id operation normalizes the external
id before building its cache key, so its keys coincide for ids equal
after separator stripping; the combined-enrich operation feeds the raw
id into `make_key`, so ids differing only in separator characters derive
different keys there. -/
theorem C9_only_isbn_lookup_key_normalized (i1 i2 : String)
    (h : cleanIsbn i1 = cleanIsbn i2) :
    isbnCacheKey i1 = isbnCacheKey i2 ∧
    enrichCacheKey "Clean Code" "Robert Martin" (some "978-0132350884") ≠
      enrichCacheKey "Clean Code" "Robert Martin" (some "9780132350884") := by
  refine ⟨?_, by decide⟩
  rw [isbnCacheKey, isbnCacheKey, h]

/-- C9 amended, witness at the separator-variant pair of ids. -/
theorem C9_only_isbn_lookup_key_normalized_witness :
    cleanIsbn "978-0132350884" = cleanIsbn "9780132350884" ∧
    (isbnCacheKey "978-0132350884" = isbnCacheKey "9780132350884" ∧
     enrichCacheKey "Clean Code" "Robert Martin" (some "978-0132350884") ≠
       enrichCacheKey "Clean Code" "Robert Martin" (some "9780132350884")) :=
  ⟨by decide,
    C9_only_isbn_lookup_key_normalized "978-0132350884" "9780132350884"
      (by decide)⟩

/-- The exponential backoff schedule: the sleeps performed for `count`
consecutive retried attempts starting at attempt index `idx`. -/
def backoffDelays (backoff : ℚ) (idx count : Nat) : List ℚ :=
  match count with
  | 0 => []
  | n + 1 => backoff * 2 ^ idx :: backoffDelays backoff (idx + 1) n

theorem requestGo_all_timeouts (backoff : ℚ) (outcomes : Nat → Outcome)
    (htimeout : ∀ i, outcomes i = Outcome.timeout) :
    ∀ (r idx : Nat) (delays : List ℚ), 0 < r →
      requestGo backoff outcomes r idx delays =
        ⟨Except.error ReqError.timeoutErr,
         delays.reverse ++ backoffDelays backoff idx (r - 1), idx + r⟩ := by
  intro r
  induction r with
  | zero => omega
  | succ n ih =>
    intro idx delays _
    rcases n with _ | m
    · simp [requestGo, htimeout idx, backoffDelays]
    · have hrec := ih (idx + 1) (backoff * 2 ^ idx :: delays) (by omega)
      rw [requestGo, htimeout idx]
      simp only [Nat.succ_ne_zero, if_false]
      rw [hrec]
      simp [backoffDelays]
      omega

/-- C6: the shared request executor retries only on transient failures.
A non-retryable outcome — an HTTP status below 500 (4xx) or a malformed
body — propagates on the attempt where it occurs with no backoff sleep;
a timeout or a 5xx status before the last attempt causes exactly one
sleep of `backoff * 2 ^ attempt` and a retry; on the last attempt the
transient failure is raised; and when every attempt times out the
executor raises after `retries` attempts, having slept the exponential
schedule `backoff * 2 ^ 0, …, backoff * 2 ^ (retries - 2)`. -/
theorem C6_retry_policy (retries : Nat) (backoff : ℚ)
    (outcomes : Nat → Outcome) :
    (∀ idx r delays code, outcomes idx = Outcome.httpStatus code →
      code < 500 →
      requestGo backoff outcomes (r + 1) idx delays =
        ⟨Except.error (ReqError.statusErr code), delays.reverse, idx + 1⟩) ∧
    (∀ idx r delays, outcomes idx = Outcome.malformed →
      requestGo backoff outcomes (r + 1) idx delays =
        ⟨Except.error ReqError.malformedErr, delays.reverse, idx + 1⟩) ∧
    (∀ idx r delays, outcomes idx = Outcome.timeout → 0 < r →
      requestGo backoff outcomes (r + 1) idx delays =
        requestGo backoff outcomes r (idx + 1)
          (backoff * 2 ^ idx :: delays)) ∧
    (∀ idx delays, outcomes idx = Outcome.timeout →
      requestGo backoff outcomes 1 idx delays =
        ⟨Except.error ReqError.timeoutErr, delays.reverse, idx + 1⟩) ∧
    (∀ idx r delays code, outcomes idx = Outcome.httpStatus code →
      500 ≤ code → 0 < r →
      requestGo backoff outcomes (r + 1) idx delays =
        requestGo backoff outcomes r (idx + 1)
          (backoff * 2 ^ idx :: delays)) ∧
    (∀ idx delays code, outcomes idx = Outcome.httpStatus code →
      500 ≤ code →
      requestGo backoff outcomes 1 idx delays =
        ⟨Except.error (ReqError.statusErr code), delays.reverse, idx + 1⟩) ∧
    ((∀ i, outcomes i = Outcome.timeout) → 0 < retries →
      requestRun retries backoff outcomes =
        ⟨Except.error ReqError.timeoutErr,
         backoffDelays backoff 0 (retries - 1), retries⟩) := by
  refine ⟨?_, ?_, ?_, ?_, ?_, ?_, ?_⟩
  · intro idx r delays code h hlt
    rw [requestGo, h]
    simp [show ¬(500 ≤ code ∧ r ≠ 0) by omega]
  · intro idx r delays h
    rw [requestGo, h]
  · intro idx r delays h hr
    rw [requestGo, h]
    simp [show ¬r = 0 by omega]
  · intro idx delays h
    rw [requestGo, h]
    simp
  · intro idx r delays code h hge hr
    rw [requestGo, h]
    simp [show 500 ≤ code ∧ ¬r = 0 by omega]
  · intro idx delays code h hge
    rw [requestGo, h]
    simp
  · intro ht hr
    rw [requestRun, requestGo_all_timeouts backoff outcomes ht retries 0 [] hr]
    simp

/-- C6 witness: a 404 on the first attempt propagates at once with no
sleep; three straight timeouts exhaust `retries = 3` with sleeps
`2 * 2 ^ 0` and `2 * 2 ^ 1`. -/
theorem C6_retry_policy_witness :
    ((fun (_ : Nat) => Outcome.httpStatus 404) 0 = Outcome.httpStatus 404 ∧
      (404 : Nat) < 500 ∧
      requestGo 2 (fun (_ : Nat) => Outcome.httpStatus 404) (2 + 1) 0 [] =
        ⟨Except.error (ReqError.statusErr 404), [], 1⟩) ∧
    ((∀ i, (fun (_ : Nat) => Outcome.timeout) i = Outcome.timeout) ∧ 0 < 3 ∧
      requestRun 3 2 (fun (_ : Nat) => Outcome.timeout) =
        ⟨Except.error ReqError.timeoutErr, backoffDelays 2 0 2, 3⟩) := by
  obtain ⟨g1, -, -, -, -, -, -⟩ :=
    C6_retry_policy 3 2 (fun (_ : Nat) => Outcome.httpStatus 404)
  obtain ⟨-, -, -, -, -, -, h7⟩ :=
    C6_retry_policy 3 2 (fun (_ : Nat) => Outcome.timeout)
  exact ⟨⟨rfl, by norm_num,
          by simpa using g1 0 2 [] 404 rfl (by norm_num)⟩,
         ⟨fun i => rfl, by norm_num,
          by simpa using h7 (fun i => rfl) (by norm_num)⟩⟩

end LibraryCatalog
